import Mathlib

/-!
Verification development for the clawdbot provider runtime.

This file gives a shallow embedding of four components of the repository and
proves the spec's testable properties against it:

* the provider runtime/lifecycle manager (`src/gateway/server-providers.ts`:
  `startProvider`, `stopProvider`, `startProviders`, `markWhatsAppLoggedOut`,
  the tracked-task settlement chain, and the per-provider runtime store);
* the outbound delivery engine (`src/infra/outbound/deliver.ts`:
  `deliverOutboundPayloads`, its chunked text path and media-caption loop,
  best-effort versus fail-fast error handling);
* the outbound target resolver (`resolveOutboundTarget` and each provider
  plugin's `outbound.resolveTarget`);
* the process supervisor loop (`src/cli/gateway-cli.ts`: `runGatewayLoop`).

Conventions of the embedding: JavaScript `Map`s keyed by account id become
total functions out of `String` (absence = `false` / `none`); promises and
their settlement become explicit outcome parameters; `Date.now()` becomes an
explicit `Nat` parameter supplied by the caller of each operation; functions
supplied by provider plugins that live outside the embedded files (config
resolution, chunkers, the E.164 normalizer, network sends) are parameters of
the model, since the embedded orchestration code treats them as black boxes.
-/

set_option autoImplicit false

namespace Clawdbot

/-- The provider identifiers, `ProviderId` in `src/providers/plugins/types.ts`
(the chat providers plus `msteams`). -/
inductive ProviderId where
  | whatsapp
  | telegram
  | discord
  | slack
  | signal
  | imessage
  | msteams
  deriving DecidableEq, Repr

/-! ## Provider runtime manager (`src/gateway/server-providers.ts`) -/

/-- The mutable per-account status record (`ProviderAccountSnapshot`),
restricted to the fields the manager itself writes.  The per-provider
defaults in `DEFAULT_RUNTIME` all share this common shape with
`running = false` and null timestamps/error. -/
structure Snapshot where
  accountId : String
  running : Bool
  connected : Bool
  lastStartAt : Option Nat
  lastStopAt : Option Nat
  lastError : Option String
  deriving DecidableEq, Repr

/-- Source `cloneDefaultRuntime`: the default-shaped snapshot for a fresh account. -/
def cloneDefaultRuntime (accountId : String) : Snapshot :=
  { accountId := accountId
    running := false
    connected := false
    lastStartAt := none
    lastStopAt := none
    lastError := none }

/-- A partial snapshot update, modelling the object-spread patch passed to
`setRuntime` (`{ ...current, ...patch, accountId }`): a `none` field is
absent from the patch and keeps the current value. -/
structure SnapshotPatch where
  running : Option Bool := none
  connected : Option Bool := none
  lastStartAt : Option (Option Nat) := none
  lastStopAt : Option (Option Nat) := none
  lastError : Option (Option String) := none

/-- The merge performed by `setRuntime`: patch fields win, and `accountId`
is always pinned to the account being written. -/
def applyPatch (cur : Snapshot) (p : SnapshotPatch) (accountId : String) : Snapshot :=
  { accountId := accountId
    running := p.running.getD cur.running
    connected := p.connected.getD cur.connected
    lastStartAt := p.lastStartAt.getD cur.lastStartAt
    lastStopAt := p.lastStopAt.getD cur.lastStopAt
    lastError := p.lastError.getD cur.lastError }

/-- Source `ProviderRuntimeStore`: per-provider maps from account id to the abort
controller, the tracked live task, and the last snapshot.  The `Map`s become
total functions (`false` / `none` encodes absence of an entry). -/
structure Store where
  aborts : String → Bool
  tasks : String → Bool
  runtimes : String → Option Snapshot

/-- Source `createRuntimeStore`: all three maps start empty. -/
def createRuntimeStore : Store :=
  { aborts := fun _ => false
    tasks := fun _ => false
    runtimes := fun _ => none }

/-- Pointwise update of a `String`-keyed map. -/
def updFn {α : Type} (f : String → α) (k : String) (v : α) : String → α :=
  fun x => if x = k then v else f x

/-- Source `getRuntime`: the stored snapshot, or the default-shaped one. -/
def getRuntime (s : Store) (id : String) : Snapshot :=
  (s.runtimes id).getD (cloneDefaultRuntime id)

/-- Source `setRuntime`: merge a patch over the current snapshot and store it. -/
def setRuntime (s : Store) (id : String) (p : SnapshotPatch) : Store :=
  { s with runtimes := updFn s.runtimes id (some (applyPatch (getRuntime s id) p id)) }

/-- The per-account facts `startProvider` computes from the current
configuration through the plugin: `isAccountEnabled(resolveAccount(cfg, id))`
and the result of the plugin's optional `isConfigured` (which defaults to
`true` when the plugin does not declare it). -/
structure AccountEnv where
  accountEnabled : Bool
  configured : Bool

/-- The test `providerId === "whatsapp"`. -/
def isWhatsApp : ProviderId → Bool
  | .whatsapp => true
  | _ => false

/-- The provider-specific "not configured" wording used by `startProvider`
(`providerId === "whatsapp" ? "not linked" : "not configured"`). -/
def notConfiguredError (pid : ProviderId) : String :=
  if isWhatsApp pid then "not linked" else "not configured"

/-- One account's arm of the `Promise.all` inside `startProvider`
(lines 232–297 of `server-providers.ts`): skip when a live task is already
tracked; otherwise record `disabled` / not-configured lifecycle errors in the
snapshot without starting, or create the abort handle, mark
`{running: true, lastStartAt: now, lastError: null}` and track the task.
`webDisabled` models `cfg.web?.enabled === false`. -/
def startAccountStep (pid : ProviderId) (webDisabled : Bool) (env : String → AccountEnv)
    (now : Nat) (s : Store) (id : String) : Store :=
  if s.tasks id then s
  else
    let e := env id
    let enabled := e.accountEnabled && !(isWhatsApp pid && webDisabled)
    if !enabled then
      setRuntime s id { running := some false, lastError := some (some "disabled") }
    else if !e.configured then
      setRuntime s id { running := some false, lastError := some (some (notConfiguredError pid)) }
    else
      let s1 : Store := { s with aborts := updFn s.aborts id true }
      let s2 := setRuntime s1 id
        { running := some true, lastStartAt := some (some now), lastError := some none }
      { s2 with tasks := updFn s2.tasks id true }

/-- The `.catch(...).finally(...)` chain wrapped around a tracked task
(lines 281–295): on settlement, a failure message (if any) is captured into
`lastError`, then the abort and task entries are cleared and
`{running: false, lastStopAt: now}` is merged.  A task ending is never fatal
to the process: it only updates this one account's snapshot. -/
def settleTracked (id : String) (failure : Option String) (now : Nat) (s : Store) : Store :=
  let s1 := match failure with
    | some msg => setRuntime s id { lastError := some (some msg) }
    | none => s
  let s2 : Store :=
    { s1 with aborts := updFn s1.aborts id false, tasks := updFn s1.tasks id false }
  setRuntime s2 id { running := some false, lastStopAt := some (some now) }

/-- One account's arm of the `Promise.all` inside `stopProvider`
(lines 316–346): return early when there is no abort handle, no task and no
`stopAccount` hook; otherwise signal cancellation, run the optional hook
(no plugin in the repository declares `gateway.stopAccount`, so the hook has
no store effect here), `try { await task } catch { /* ignore */ }` — awaiting
the tracked task first runs its own settlement chain and any rejection is
swallowed — then clear both entries and merge
`{running: false, lastStopAt: now}`. -/
def stopAccountStep (hasStopHook : Bool) (taskFailure : String → Option String)
    (tSettle tStop : Nat) (s : Store) (id : String) : Store :=
  let hasAbort := s.aborts id
  let hasTask := s.tasks id
  if !hasAbort && !hasTask && !hasStopHook then s
  else
    let s1 := if hasTask then settleTracked id (taskFailure id) tSettle s else s
    let s2 : Store :=
      { s1 with aborts := updFn s1.aborts id false, tasks := updFn s1.tasks id false }
    setRuntime s2 id { running := some false, lastStopAt := some (some tStop) }

/-- The whole manager state: one `Store` per provider
(`providerStores`, with `getStore` creating empty stores lazily — the total
function with empty default is observationally the same). -/
structure ManagerState where
  stores : ProviderId → Store

/-- The manager at process start: every store empty. -/
def initialManagerState : ManagerState :=
  { stores := fun _ => createRuntimeStore }

/-- Replace one provider's store. -/
def setStore (ms : ManagerState) (pid : ProviderId) (st : Store) : ManagerState :=
  { stores := fun q => if q = pid then st else ms.stores q }

/-- Source `startProvider(providerId, accountId?)` (lines 220–299): a no-op when the
plugin declares no `gateway.startAccount`; otherwise the candidate account
ids (`[accountId]` or `listAccountIds(cfg)`, passed here as `ids`) are each
started.  The `Promise.all` arms touch disjoint account entries, so they are
folded sequentially. -/
def startProvider (pid : ProviderId) (hasStart : Bool) (ids : List String)
    (env : String → AccountEnv) (webDisabled : Bool) (now : Nat)
    (ms : ManagerState) : ManagerState :=
  if !hasStart then ms
  else setStore ms pid (ids.foldl (startAccountStep pid webDisabled env now) (ms.stores pid))

/-- Source `stopProvider(providerId, accountId?)` (lines 301–348): the known ids
(union of tracked ids and configured ids, or the single requested id) are
each stopped.  The id set is passed here as `ids`. -/
def stopProvider (pid : ProviderId) (hasStopHook : Bool) (ids : List String)
    (taskFailure : String → Option String) (tSettle tStop : Nat)
    (ms : ManagerState) : ManagerState :=
  setStore ms pid (ids.foldl (stopAccountStep hasStopHook taskFailure tSettle tStop) (ms.stores pid))

/-- The per-provider inputs one iteration of `startProviders` derives from the
plugin and the configuration. -/
structure StartProviderInput where
  pid : ProviderId
  hasStart : Bool
  ids : List String
  env : String → AccountEnv
  webDisabled : Bool
  now : Nat

/-- Source `startProviders()` (lines 350–354): start every registered plugin's
accounts in registry order, one provider after the other. -/
def startProviders (inputs : List StartProviderInput) (ms : ManagerState) : ManagerState :=
  inputs.foldl
    (fun acc i => startProvider i.pid i.hasStart i.ids i.env i.webDisabled i.now acc) ms

/-- Source `markWhatsAppLoggedOut(cleared, accountId?)` (lines 356–366): merge
`{running: false, connected: false}` into the resolved account's snapshot,
setting `lastError` to `"logged out"` when credentials were cleared and
keeping the current error otherwise.  The task and abort maps are not
touched. -/
def markWhatsAppLoggedOut (resolvedId : String) (cleared : Bool)
    (ms : ManagerState) : ManagerState :=
  let st := ms.stores .whatsapp
  let cur := getRuntime st resolvedId
  setStore ms .whatsapp
    (setRuntime st resolvedId
      { running := some false
        connected := some false
        lastError := some (if cleared then some "logged out" else cur.lastError) })

/-- One manager operation, carrying the configuration-derived inputs the
real call reads fresh from `loadConfig()`.  `settle` is the settlement of a
tracked task's promise (its `.catch().finally()` chain firing on its own,
e.g. a connection failure); `snapshot` is `getRuntimeSnapshot`, which only
reads the stores. -/
inductive ManagerOp where
  | start (pid : ProviderId) (hasStart : Bool) (ids : List String)
      (env : String → AccountEnv) (webDisabled : Bool) (now : Nat)
  | settle (pid : ProviderId) (id : String) (failure : Option String) (now : Nat)
  | stop (pid : ProviderId) (hasStopHook : Bool) (ids : List String)
      (taskFailure : String → Option String) (tSettle tStop : Nat)
  | markLoggedOut (resolvedId : String) (cleared : Bool)
  | snapshot

/-- Whether an operation is the WhatsApp logged-out hook. -/
def ManagerOp.isMarkLoggedOut : ManagerOp → Bool
  | .markLoggedOut _ _ => true
  | _ => false

/-- Apply one manager operation. -/
def applyOp (ms : ManagerState) : ManagerOp → ManagerState
  | .start pid hasStart ids env webDisabled now =>
      startProvider pid hasStart ids env webDisabled now ms
  | .settle pid id failure now =>
      setStore ms pid (settleTracked id failure now (ms.stores pid))
  | .stop pid hasStopHook ids taskFailure tSettle tStop =>
      stopProvider pid hasStopHook ids taskFailure tSettle tStop ms
  | .markLoggedOut resolvedId cleared => markWhatsAppLoggedOut resolvedId cleared ms
  | .snapshot => ms

/-- Apply a sequence of manager operations, oldest first. -/
def applyOps (ops : List ManagerOp) (ms : ManagerState) : ManagerState :=
  ops.foldl applyOp ms

/-- The snapshot/task consistency invariant of `§3` of the spec for one
provider store: `running = false` implies no live task is registered. -/
def storeInv (st : Store) : Prop :=
  ∀ id, (getRuntime st id).running = false → st.tasks id = false

/-- The invariant over the whole manager state. -/
def managerInv (ms : ManagerState) : Prop :=
  ∀ pid, storeInv (ms.stores pid)

/-! ## Outbound delivery engine (`src/infra/outbound/deliver.ts`) -/

/-- Source `NormalizedOutboundPayload` (`src/infra/outbound/payloads.ts`): a reply
unit of text plus an ordered media URL list.  `deliverOutboundPayloads`
consumes the already-normalized list, which is what is modelled here. -/
structure NormalizedOutboundPayload where
  text : String
  mediaUrls : List String
  deriving DecidableEq, Repr

/-- One provider send call made by the delivery loop: `handler.sendText(text)`
or `handler.sendMedia(caption, mediaUrl)`. -/
inductive SendCall where
  | text (t : String)
  | media (caption url : String)
  deriving DecidableEq, Repr

/-- A provider chunker (`(text, limit) => string[]`).  The concrete chunkers
(`chunkText`, `chunkMarkdownText`) live outside the embedded file and are
parameters of the model. -/
def Chunker : Type := String → Nat → List String

/-- The outcome of issuing a list of send calls in order, stopping at the
first rejection: the calls actually made (the failing call included), the
`DeliveryResult`s pushed onto `results`, and the error thrown, if any.
The environment `send` maps each call to its settlement. -/
structure SendOutcome (E R : Type) where
  calls : List SendCall
  results : List R
  err : Option E
  deriving DecidableEq, Repr

/-- Issue calls sequentially (the loop bodies `results.push(await ...)`):
each call is awaited before the next is made, and a rejection aborts the
rest of the payload's calls. -/
def sendSeq {E R : Type} (send : SendCall → Except E R) : List SendCall → SendOutcome E R
  | [] => ⟨[], [], none⟩
  | c :: cs =>
    match send c with
    | .error e => ⟨[c], [], some e⟩
    | .ok r =>
      let o := sendSeq send cs
      ⟨c :: o.calls, r :: o.results, o.err⟩

/-- The text path of `sendTextChunks` (lines 351–359): with a chunker and a
defined limit, one `sendText` per chunk of `chunker(text, limit)`, in order;
otherwise (`!handler.chunker || textLimit === undefined`) the whole text as
one `sendText` call. -/
def sendTextCalls (chunker : Option Chunker) (textLimit : Option Nat) (text : String) :
    List SendCall :=
  match chunker, textLimit with
  | some c, some l => (c text l).map SendCall.text
  | some _, none => [SendCall.text text]
  | none, _ => [SendCall.text text]

/-- The media loop (lines 370–375): one `sendMedia` per URL in list order;
the `first` flag gives the payload text as caption to the first item only,
and `""` to the rest. -/
def mediaCalls (text : String) : List String → List SendCall
  | [] => []
  | u :: rest => SendCall.media text u :: rest.map (fun v => SendCall.media "" v)

/-- The calls one normalized payload produces (lines 365–375): the text path
when `payload.mediaUrls.length === 0`, else the media loop. -/
def payloadCalls (chunker : Option Chunker) (textLimit : Option Nat)
    (p : NormalizedOutboundPayload) : List SendCall :=
  if p.mediaUrls.isEmpty then sendTextCalls chunker textLimit p.text
  else mediaCalls p.text p.mediaUrls

/-- The observable outcome of `deliverOutboundPayloads`' main loop: all calls
made (in order), the accumulated `results` array, the `onError` callback
invocations (error and the normalized payload passed to it, in order), and
the error propagated to the caller when not in best-effort mode. -/
structure DeliverOutcome (E R : Type) where
  calls : List SendCall
  results : List R
  callbacks : List (E × NormalizedOutboundPayload)
  thrown : Option E
  deriving DecidableEq, Repr

/-- The per-payload loop of `deliverOutboundPayloads` (lines 362–381): each
payload's calls run sequentially; a rejection inside a payload either fires
`onError` and continues with the next payload (`bestEffort`) or aborts the
whole delivery and propagates (`throw err`).  Results pushed before a
rejection stay in `results`. -/
def deliverOutboundPayloads {E R : Type} (chunker : Option Chunker) (textLimit : Option Nat)
    (send : SendCall → Except E R) (bestEffort : Bool) :
    List NormalizedOutboundPayload → DeliverOutcome E R
  | [] => ⟨[], [], [], none⟩
  | p :: rest =>
    let o := sendSeq send (payloadCalls chunker textLimit p)
    match o.err with
    | none =>
      let d := deliverOutboundPayloads chunker textLimit send bestEffort rest
      ⟨o.calls ++ d.calls, o.results ++ d.results, d.callbacks, d.thrown⟩
    | some e =>
      if bestEffort then
        let d := deliverOutboundPayloads chunker textLimit send bestEffort rest
        ⟨o.calls ++ d.calls, o.results ++ d.results, (e, p) :: d.callbacks, d.thrown⟩
      else ⟨o.calls, o.results, [], some e⟩

/-! ## Outbound target resolver (`resolveOutboundTarget` and the plugins'
`outbound.resolveTarget`) -/

/-- JavaScript `String.prototype.trim()`: strip leading and trailing
whitespace.  (Core `String.trim` is defined by well-founded recursion and
does not reduce in the kernel, so the embedding uses an equivalent
structural implementation over the character list.) -/
def jsTrim (s : String) : String :=
  String.mk (((s.data.dropWhile Char.isWhitespace).reverse.dropWhile
    Char.isWhitespace).reverse)

/-- Source `OutboundTargetResolution`: `{ok: true, to}` or `{ok: false, error}`
(the `Error` is carried as its message string). -/
inductive OutboundTargetResolution where
  | ok (dest : String)
  | err (msg : String)
  deriving DecidableEq, Repr

/-- The WhatsApp plugin's `outbound.resolveTarget`: a non-empty trimmed
destination is normalized with `normalizeE164`; otherwise the first
`allowFrom` entry (trimmed) is used as fallback, also normalized; otherwise
a descriptive error.  `normalizeE164` lives outside the embedded files and
is a parameter. -/
def whatsappResolveTarget (normalizeE164 : String → String)
    (dest : Option String) (allowFrom : Option (List String)) : OutboundTargetResolution :=
  let trimmed := (dest.map jsTrim).getD ""
  if trimmed ≠ "" then .ok (normalizeE164 trimmed)
  else
    let fallback := (((allowFrom.getD []).head?).map jsTrim).getD ""
    if fallback ≠ "" then .ok (normalizeE164 fallback)
    else .err "Delivering to WhatsApp requires --to <E.164> or whatsapp.allowFrom[0]"

/-- The shared shape of the six other plugins' `resolveTarget`: fail with the
provider's syntax message when the trimmed destination is empty, else succeed
with the trimmed destination. -/
def simpleResolveTarget (msg : String) (dest : Option String) : OutboundTargetResolution :=
  let trimmed := (dest.map jsTrim).getD ""
  if trimmed = "" then .err msg else .ok trimmed

/-- Each provider's expected-address-syntax error message, as written in that
plugin's `resolveTarget` (and duplicated in the `resolveOutboundTarget`
fallback branches). -/
def expectedSyntaxError (pid : ProviderId) : String :=
  match pid with
  | .whatsapp => "Delivering to WhatsApp requires --to <E.164> or whatsapp.allowFrom[0]"
  | .telegram => "Delivering to Telegram requires --to <chatId>"
  | .discord => "Delivering to Discord requires --to <channelId|user:ID|channel:ID>"
  | .slack => "Delivering to Slack requires --to <channelId|user:ID|channel:ID>"
  | .signal => "Delivering to Signal requires --to <E.164|group:ID|signal:group:ID|signal:+E.164>"
  | .imessage => "Delivering to iMessage requires --to <handle|chat_id:ID>"
  | .msteams => "Delivering to MS Teams requires --to <conversationId|user:ID|conversation:ID>"

/-- Source `resolveOutboundTarget` for a supported provider: every registered plugin
supplies `outbound.resolveTarget`, so the dispatch always takes the plugin's
resolver (the function's inline fallback branches repeat the same logic and
are unreachable for these providers).  Pure validation and fallback logic:
no network I/O, no suspension. -/
def resolveOutboundTarget (pid : ProviderId) (normalizeE164 : String → String)
    (dest : Option String) (allowFrom : Option (List String)) : OutboundTargetResolution :=
  match pid with
  | .whatsapp => whatsappResolveTarget normalizeE164 dest allowFrom
  | p => simpleResolveTarget (expectedSyntaxError p) dest

/-! ## Process supervisor (`runGatewayLoop` in `src/cli/gateway-cli.ts`) -/

/-- The signal actions wired to `SIGTERM`/`SIGINT` (`stop`) and `SIGUSR1`
(`restart`). -/
inductive GatewayRunSignalAction where
  | stop
  | restart
  deriving DecidableEq, Repr

/-- The test `action === "restart"`. -/
def GatewayRunSignalAction.isRestart : GatewayRunSignalAction → Bool
  | .restart => true
  | .stop => false

/-- The observable state of `runGatewayLoop`: the `shuttingDown` flag, whether
a `server.close()` is in flight and with which pending action, whether the
forced-exit timer is armed, whether a server instance is up (`serverGen`
counts constructions by `params.start()`), and whether the process has
exited. -/
structure SupervisorState where
  shuttingDown : Bool
  closing : Bool
  pendingRestart : Bool
  timerArmed : Bool
  serverUp : Bool
  serverGen : Nat
  exited : Bool
  deriving DecidableEq, Repr

/-- The loop right after the first `server = await params.start()`. -/
def supervisorInit : SupervisorState :=
  { shuttingDown := false
    closing := false
    pendingRestart := false
    timerArmed := false
    serverUp := true
    serverGen := 1
    exited := false }

/-- The events the loop reacts to: a signal arriving (`request`), the
`server.close()` settling (the `finally` block), and the 5-second forced-exit
timer firing. -/
inductive SupervisorEvent where
  | signal (action : GatewayRunSignalAction)
  | closeDone
  | timerFired
  deriving DecidableEq, Repr

/-- One step of `runGatewayLoop` (lines 303–359).  `request`: a signal during
shutdown is logged and ignored; otherwise `shuttingDown` is set, the
forced-exit timer armed, and the close started.  `closeDone` (the `finally`
after `server.close()`): clear the timer and the server; on a restart clear
`shuttingDown` and resolve the loop, which constructs a fresh server in the
same process; on a stop, exit.  `timerFired`: exit without full cleanup. -/
def supervisorStep (s : SupervisorState) : SupervisorEvent → SupervisorState
  | .signal action =>
    if s.exited then s
    else if s.shuttingDown then s
    else
      { s with shuttingDown := true, closing := true, timerArmed := true
               pendingRestart := action.isRestart }
  | .closeDone =>
    if s.exited || !s.closing then s
    else if s.pendingRestart then
      { s with closing := false, timerArmed := false, pendingRestart := false
               shuttingDown := false, serverUp := true, serverGen := s.serverGen + 1 }
    else
      { s with closing := false, timerArmed := false, serverUp := false, exited := true }
  | .timerFired =>
    if s.timerArmed && !s.exited then { s with exited := true } else s

/-! ## Basic lemmas about the store and manager state -/

theorem updFn_apply {α : Type} (f : String → α) (k : String) (v : α) (x : String) :
    updFn f k v x = if x = k then v else f x := rfl

theorem setRuntime_tasks (s : Store) (id : String) (p : SnapshotPatch) :
    (setRuntime s id p).tasks = s.tasks := rfl

theorem setRuntime_aborts (s : Store) (id : String) (p : SnapshotPatch) :
    (setRuntime s id p).aborts = s.aborts := rfl

theorem getRuntime_setRuntime_self (s : Store) (id : String) (p : SnapshotPatch) :
    getRuntime (setRuntime s id p) id = applyPatch (getRuntime s id) p id := by
  simp [getRuntime, setRuntime, updFn]

theorem getRuntime_setRuntime_ne (s : Store) (id x : String) (p : SnapshotPatch)
    (h : x ≠ id) : getRuntime (setRuntime s id p) x = getRuntime s x := by
  simp [getRuntime, setRuntime, updFn, h]

theorem stores_setStore_self (ms : ManagerState) (pid : ProviderId) (st : Store) :
    (setStore ms pid st).stores pid = st := by
  simp [setStore]

theorem stores_setStore_ne (ms : ManagerState) (pid q : ProviderId) (st : Store)
    (h : q ≠ pid) : (setStore ms pid st).stores q = ms.stores q := by
  simp [setStore, h]

theorem managerState_ext {a b : ManagerState} (h : a.stores = b.stores) : a = b := by
  cases a; cases b; simp_all

/-- The tracked-task settlement chain never touches the task map of other
accounts and clears its own. -/
theorem settleTracked_tasks (id : String) (f : Option String) (now : Nat) (s : Store) :
    (settleTracked id f now s).tasks = updFn s.tasks id false := by
  cases f <;> rfl

theorem settleTracked_aborts (id : String) (f : Option String) (now : Nat) (s : Store) :
    (settleTracked id f now s).aborts = updFn s.aborts id false := by
  cases f <;> rfl

theorem getRuntime_settleTracked_self (id : String) (f : Option String) (now : Nat)
    (s : Store) :
    getRuntime (settleTracked id f now s) id =
      { accountId := id
        running := false
        connected := (getRuntime s id).connected
        lastStartAt := (getRuntime s id).lastStartAt
        lastStopAt := some now
        lastError := match f with
          | some msg => some msg
          | none => (getRuntime s id).lastError } := by
  cases f <;>
    simp [settleTracked, getRuntime, setRuntime, updFn, applyPatch, cloneDefaultRuntime]

theorem getRuntime_settleTracked_ne (id x : String) (f : Option String) (now : Nat)
    (s : Store) (h : x ≠ id) :
    getRuntime (settleTracked id f now s) x = getRuntime s x := by
  cases f <;> simp [settleTracked, getRuntime, setRuntime, updFn, h]

theorem setStore_setStore (ms : ManagerState) (pid : ProviderId) (st₁ st₂ : Store) :
    setStore (setStore ms pid st₁) pid st₂ = setStore ms pid st₂ := by
  apply managerState_ext
  funext q
  by_cases hq : q = pid <;> simp [setStore, hq]

/-- A second `startProvider` arm for an account with a live tracked task
returns without touching anything (`if (store.tasks.has(id)) return;`). -/
theorem startAccountStep_skip (pid : ProviderId) (wd : Bool) (env : String → AccountEnv)
    (now : Nat) (s : Store) (id : String) (h : s.tasks id = true) :
    startAccountStep pid wd env now s id = s := by
  simp [startAccountStep, h]

/-- The successful start path: the task and abort entries are registered and
the snapshot becomes `{running: true, lastStartAt: now, lastError: null}`
merged over the current one. -/
theorem startAccountStep_success (pid : ProviderId) (wd : Bool) (env : String → AccountEnv)
    (now : Nat) (s : Store) (id : String)
    (hTask : s.tasks id = false)
    (hEnabled : ((env id).accountEnabled && !(isWhatsApp pid && wd)) = true)
    (hConf : (env id).configured = true) :
    (startAccountStep pid wd env now s id).tasks = updFn s.tasks id true
    ∧ (startAccountStep pid wd env now s id).aborts = updFn s.aborts id true
    ∧ (startAccountStep pid wd env now s id).runtimes =
        updFn s.runtimes id (some
          { accountId := id
            running := true
            connected := (getRuntime s id).connected
            lastStartAt := some now
            lastStopAt := (getRuntime s id).lastStopAt
            lastError := none }) := by
  have h1 : (env id).accountEnabled = true := by
    by_cases h : (env id).accountEnabled = true
    · exact h
    · simp only [Bool.not_eq_true] at h
      rw [h] at hEnabled
      simp at hEnabled
  have h2 : ¬(isWhatsApp pid = true ∧ wd = true) := by
    rintro ⟨hw, hd⟩
    rw [hw, hd] at hEnabled
    simp [h1] at hEnabled
  refine ⟨?_, ?_, ?_⟩ <;>
    simp [startAccountStep, hTask, hConf, setRuntime, applyPatch, getRuntime, h1, h2]

/-! ## C1: idempotent start -/

/-- C1.  Idempotent start: for a provider and account whose start succeeds
(no live task yet, enabled, configured), a second `startProvider` for the
same account without an intervening stop leaves the manager state exactly as
after the first call — regardless of the second call's configuration inputs
or clock — so exactly one live task is registered for the account and
`lastStartAt` holds the first call's timestamp; the second call is a no-op,
not an error. -/
theorem startProvider_idempotent
    (pid : ProviderId) (webDisabled : Bool) (env₁ env₂ : String → AccountEnv)
    (t₁ t₂ : Nat) (ms : ManagerState) (A : String)
    (hTask : (ms.stores pid).tasks A = false)
    (hEnabled : ((env₁ A).accountEnabled && !(isWhatsApp pid && webDisabled)) = true)
    (hConf : (env₁ A).configured = true) :
    startProvider pid true [A] env₂ webDisabled t₂
        (startProvider pid true [A] env₁ webDisabled t₁ ms)
      = startProvider pid true [A] env₁ webDisabled t₁ ms
    ∧ ((startProvider pid true [A] env₁ webDisabled t₁ ms).stores pid).tasks A = true
    ∧ (getRuntime ((startProvider pid true [A] env₁ webDisabled t₁ ms).stores pid) A).running
        = true
    ∧ (getRuntime ((startProvider pid true [A] env₁ webDisabled t₁ ms).stores pid) A).lastStartAt
        = some t₁ := by
  obtain ⟨hT, hA, hR⟩ :=
    startAccountStep_success pid webDisabled env₁ t₁ (ms.stores pid) A hTask hEnabled hConf
  have hfold : startProvider pid true [A] env₁ webDisabled t₁ ms
      = setStore ms pid (startAccountStep pid webDisabled env₁ t₁ (ms.stores pid) A) := by
    simp [startProvider, List.foldl]
  set S := startAccountStep pid webDisabled env₁ t₁ (ms.stores pid) A with hS
  have hStasks : S.tasks A = true := by rw [hT, updFn_apply]; simp
  refine ⟨?_, ?_, ?_, ?_⟩
  · rw [hfold]
    have : startAccountStep pid webDisabled env₂ t₂ ((setStore ms pid S).stores pid) A
        = S := by
      rw [stores_setStore_self]
      exact startAccountStep_skip pid webDisabled env₂ t₂ S A hStasks
    simp [startProvider, List.foldl, this, setStore_setStore]
  · rw [hfold, stores_setStore_self]
    exact hStasks
  · rw [hfold, stores_setStore_self]
    simp [getRuntime, hR, updFn]
  · rw [hfold, stores_setStore_self]
    simp [getRuntime, hR, updFn]

/-- Concrete instance of C1: starting the Telegram default account twice from
a fresh manager. -/
theorem startProvider_idempotent_witness :
    (initialManagerState.stores .telegram).tasks "default" = false
    ∧ (((fun _ => (⟨true, true⟩ : AccountEnv)) "default").accountEnabled
        && !(isWhatsApp .telegram && false)) = true
    ∧ ((fun _ => (⟨true, true⟩ : AccountEnv)) "default").configured = true
    ∧ (startProvider .telegram true ["default"] (fun _ => ⟨true, true⟩) false 2
        (startProvider .telegram true ["default"] (fun _ => ⟨true, true⟩) false 1
          initialManagerState)
      = startProvider .telegram true ["default"] (fun _ => ⟨true, true⟩) false 1
          initialManagerState) := by
  refine ⟨rfl, rfl, rfl, ?_⟩
  exact (startProvider_idempotent .telegram false (fun _ => ⟨true, true⟩)
    (fun _ => ⟨true, true⟩) 1 2 initialManagerState "default" rfl rfl rfl).1

/-! ## C3: stop postcondition -/

/-- C3.  Stop postcondition: after a successful start (a live task is
tracked), `stopProvider` for that account — whatever the awaited task's own
settlement is, including a rejection on teardown (`taskFailure A = some msg`),
which the `try { await task } catch {}` swallows so the stop itself resolves —
leaves the account with no cancellation handle, no task handle, and a
snapshot with `running = false` and `lastStopAt` set to the stop time. -/
theorem stopProvider_postcondition
    (pid : ProviderId) (hook : Bool) (taskFailure : String → Option String)
    (tSettle tStop : Nat) (ms : ManagerState) (A : String)
    (hTask : (ms.stores pid).tasks A = true) :
    ((stopProvider pid hook [A] taskFailure tSettle tStop ms).stores pid).aborts A = false
    ∧ ((stopProvider pid hook [A] taskFailure tSettle tStop ms).stores pid).tasks A = false
    ∧ (getRuntime ((stopProvider pid hook [A] taskFailure tSettle tStop ms).stores pid) A).running
        = false
    ∧ (getRuntime ((stopProvider pid hook [A] taskFailure tSettle tStop ms).stores pid) A).lastStopAt
        = some tStop := by
  have hfold : stopProvider pid hook [A] taskFailure tSettle tStop ms
      = setStore ms pid
          (stopAccountStep hook taskFailure tSettle tStop (ms.stores pid) A) := by
    simp [stopProvider, List.foldl]
  refine ⟨?_, ?_, ?_, ?_⟩ <;>
    · rw [hfold, stores_setStore_self]
      cases hf : taskFailure A <;>
        simp [stopAccountStep, hTask, hf, settleTracked, setRuntime, updFn, getRuntime,
          applyPatch]

/-- Concrete instance of C3: stopping the Telegram default account whose
tracked task rejects on teardown. -/
theorem stopProvider_postcondition_witness :
    (((startProvider .telegram true ["default"] (fun _ => ⟨true, true⟩) false 1
          initialManagerState).stores .telegram).tasks "default" = true)
    ∧ (getRuntime ((stopProvider .telegram false ["default"] (fun _ => some "boom") 2 3
          (startProvider .telegram true ["default"] (fun _ => ⟨true, true⟩) false 1
            initialManagerState)).stores .telegram) "default").running = false
    ∧ ((stopProvider .telegram false ["default"] (fun _ => some "boom") 2 3
          (startProvider .telegram true ["default"] (fun _ => ⟨true, true⟩) false 1
            initialManagerState)).stores .telegram).tasks "default" = false := by
  refine ⟨rfl, ?_, ?_⟩
  · exact (stopProvider_postcondition .telegram false (fun _ => some "boom") 2 3
      (startProvider .telegram true ["default"] (fun _ => ⟨true, true⟩) false 1
        initialManagerState) "default" rfl).2.2.1
  · exact (stopProvider_postcondition .telegram false (fun _ => some "boom") 2 3
      (startProvider .telegram true ["default"] (fun _ => ⟨true, true⟩) false 1
        initialManagerState) "default" rfl).2.1

/-! ## C4: lifecycle-error absorption and provider independence -/

/-- The disabled path of `startProvider`: no task, no abort handle, only the
snapshot records the lifecycle error. -/
theorem startAccountStep_disabled (pid : ProviderId) (wd : Bool) (env : String → AccountEnv)
    (now : Nat) (s : Store) (id : String)
    (hTask : s.tasks id = false)
    (hDisabled : ((env id).accountEnabled && !(isWhatsApp pid && wd)) = false) :
    (getRuntime (startAccountStep pid wd env now s id) id).running = false
    ∧ (getRuntime (startAccountStep pid wd env now s id) id).lastError = some "disabled"
    ∧ (startAccountStep pid wd env now s id).tasks id = false := by
  cases h1 : (env id).accountEnabled <;> cases h2 : isWhatsApp pid <;> cases h3 : wd <;>
    simp_all [startAccountStep, setRuntime, getRuntime, applyPatch, updFn]

/-- The not-configured path of `startProvider`: no task, only the snapshot
records the provider-worded lifecycle error. -/
theorem startAccountStep_not_configured (pid : ProviderId) (wd : Bool)
    (env : String → AccountEnv) (now : Nat) (s : Store) (id : String)
    (hTask : s.tasks id = false)
    (hEnabled : ((env id).accountEnabled && !(isWhatsApp pid && wd)) = true)
    (hConf : (env id).configured = false) :
    (getRuntime (startAccountStep pid wd env now s id) id).running = false
    ∧ (getRuntime (startAccountStep pid wd env now s id) id).lastError
        = some (notConfiguredError pid)
    ∧ (startAccountStep pid wd env now s id).tasks id = false := by
  have h1 : (env id).accountEnabled = true := by
    by_cases h : (env id).accountEnabled = true
    · exact h
    · simp only [Bool.not_eq_true] at h
      rw [h] at hEnabled
      simp at hEnabled
  have h2 : ¬(isWhatsApp pid = true ∧ wd = true) := by
    rintro ⟨hw, hd⟩
    rw [hw, hd] at hEnabled
    simp [h1] at hEnabled
  refine ⟨?_, ?_, ?_⟩ <;>
    simp [startAccountStep, hTask, hConf, setRuntime, getRuntime, applyPatch, updFn, h1, h2]

/-- A `startProvider` run for one provider never touches another provider's
store. -/
theorem stores_startProvider_ne (pid : ProviderId) (hs : Bool) (ids : List String)
    (env : String → AccountEnv) (wd : Bool) (now : Nat) (ms : ManagerState)
    (q : ProviderId) (h : q ≠ pid) :
    (startProvider pid hs ids env wd now ms).stores q = ms.stores q := by
  cases hs <;> simp [startProvider, setStore, h]

/-- A `startProviders` run over providers other than `Q` never touches `Q`'s
store. -/
theorem stores_startProviders_ne (inputs : List StartProviderInput) (ms : ManagerState)
    (Q : ProviderId) (h : ∀ j ∈ inputs, j.pid ≠ Q) :
    (startProviders inputs ms).stores Q = ms.stores Q := by
  induction inputs generalizing ms with
  | nil => rfl
  | cons i rest ih =>
    have hstep : startProviders (i :: rest) ms
        = startProviders rest (startProvider i.pid i.hasStart i.ids i.env i.webDisabled i.now ms) :=
      rfl
    rw [hstep, ih _ (fun j hj => h j (List.mem_cons_of_mem _ hj))]
    exact stores_startProvider_ne i.pid i.hasStart i.ids i.env i.webDisabled i.now ms Q
      (Ne.symm (h i (List.mem_cons_self _ _)))

/-- A `startProvider` run's effect on its own provider's store depends only on that
store. -/
theorem stores_startProvider_congr (pid : ProviderId) (hs : Bool) (ids : List String)
    (env : String → AccountEnv) (wd : Bool) (now : Nat) (ms₁ ms₂ : ManagerState)
    (h : ms₁.stores pid = ms₂.stores pid) :
    (startProvider pid hs ids env wd now ms₁).stores pid
      = (startProvider pid hs ids env wd now ms₂).stores pid := by
  cases hs <;> simp [startProvider, stores_setStore_self, h]

/-- C4.  Lifecycle-error absorption and provider independence:
(1) a disabled account is not started and the `disabled` error is recorded
only in its snapshot; (2) a not-configured account likewise, with the
provider-specific wording; (3) a connection failure (the tracked task
settling with an error) is captured into `lastError` with the task cleared
and `running = false` — none of these propagate out of `startProvider`,
which returns normally in every case by construction; and (4) in
`startProviders` the final store of any one provider equals what its own
`startProvider` alone computes, whatever the other providers' inputs or
failures are. -/
theorem lifecycle_errors_absorbed_and_independent :
    (∀ (pid : ProviderId) (wd : Bool) (env : String → AccountEnv) (now : Nat) (s : Store)
        (id : String), s.tasks id = false →
      ((env id).accountEnabled && !(isWhatsApp pid && wd)) = false →
      (getRuntime (startAccountStep pid wd env now s id) id).running = false
      ∧ (getRuntime (startAccountStep pid wd env now s id) id).lastError = some "disabled"
      ∧ (startAccountStep pid wd env now s id).tasks id = false)
    ∧ (∀ (pid : ProviderId) (wd : Bool) (env : String → AccountEnv) (now : Nat) (s : Store)
        (id : String), s.tasks id = false →
      ((env id).accountEnabled && !(isWhatsApp pid && wd)) = true →
      (env id).configured = false →
      (getRuntime (startAccountStep pid wd env now s id) id).running = false
      ∧ (getRuntime (startAccountStep pid wd env now s id) id).lastError
          = some (notConfiguredError pid)
      ∧ (startAccountStep pid wd env now s id).tasks id = false)
    ∧ (∀ (id msg : String) (now : Nat) (s : Store),
      (getRuntime (settleTracked id (some msg) now s) id).lastError = some msg
      ∧ (getRuntime (settleTracked id (some msg) now s) id).running = false
      ∧ (settleTracked id (some msg) now s).tasks id = false)
    ∧ (∀ (pre post : List StartProviderInput) (i : StartProviderInput) (ms : ManagerState),
      (∀ j ∈ pre, j.pid ≠ i.pid) → (∀ j ∈ post, j.pid ≠ i.pid) →
      (startProviders (pre ++ i :: post) ms).stores i.pid
        = (startProvider i.pid i.hasStart i.ids i.env i.webDisabled i.now ms).stores i.pid) := by
  refine ⟨startAccountStep_disabled, startAccountStep_not_configured, ?_, ?_⟩
  · intro id msg now s
    refine ⟨?_, ?_, ?_⟩
    · rw [getRuntime_settleTracked_self]
    · rw [getRuntime_settleTracked_self]
    · rw [settleTracked_tasks, updFn_apply]
      simp
  · intro pre post i ms hpre hpost
    have happ : startProviders (pre ++ i :: post) ms
        = startProviders (i :: post) (startProviders pre ms) := by
      simp [startProviders, List.foldl_append]
    have hcons : startProviders (i :: post) (startProviders pre ms)
        = startProviders post
            (startProvider i.pid i.hasStart i.ids i.env i.webDisabled i.now
              (startProviders pre ms)) := rfl
    rw [happ, hcons, stores_startProviders_ne post _ _ hpost]
    exact stores_startProvider_congr i.pid i.hasStart i.ids i.env i.webDisabled i.now _ _
      (stores_startProviders_ne pre ms i.pid hpre)

/-- Concrete instance of C4: a disabled Telegram account records `disabled`
without a task, and Discord's store after `startProviders` is unaffected by a
Telegram account that fails its start. -/
theorem lifecycle_errors_absorbed_and_independent_witness :
    ((createRuntimeStore.tasks "a" = false)
      ∧ (((fun _ => (⟨false, true⟩ : AccountEnv)) "a").accountEnabled
          && !(isWhatsApp .telegram && false)) = false
      ∧ (getRuntime (startAccountStep .telegram false (fun _ => ⟨false, true⟩) 0
            createRuntimeStore "a") "a").lastError = some "disabled")
    ∧ ((∀ j ∈ [(⟨.telegram, true, ["a"], fun _ => ⟨false, true⟩, false, 0⟩ : StartProviderInput)],
          j.pid ≠ ProviderId.discord)
      ∧ (startProviders
            [⟨.telegram, true, ["a"], fun _ => ⟨false, true⟩, false, 0⟩,
             ⟨.discord, true, ["d"], fun _ => ⟨true, true⟩, false, 5⟩]
            initialManagerState).stores .discord
          = (startProvider .discord true ["d"] (fun _ => ⟨true, true⟩) false 5
              initialManagerState).stores .discord) := by
  refine ⟨⟨rfl, rfl, ?_⟩, ?_, ?_⟩
  · exact (lifecycle_errors_absorbed_and_independent.1 .telegram false
      (fun _ => ⟨false, true⟩) 0 createRuntimeStore "a" rfl rfl).2.1
  · intro j hj
    simp at hj
    subst hj
    decide
  · exact lifecycle_errors_absorbed_and_independent.2.2.2
      [⟨.telegram, true, ["a"], fun _ => ⟨false, true⟩, false, 0⟩] []
      ⟨.discord, true, ["d"], fun _ => ⟨true, true⟩, false, 5⟩ initialManagerState
      (by intro j hj; simp at hj; subst hj; decide)
      (by intro j hj; simp at hj)

/-! ## C2: snapshot/task consistency invariant -/

theorem startAccountStep_tasks_other (pid : ProviderId) (wd : Bool)
    (env : String → AccountEnv) (now : Nat) (s : Store) (id x : String) (hx : x ≠ id) :
    (startAccountStep pid wd env now s id).tasks x = s.tasks x := by
  simp only [startAccountStep]
  split_ifs <;> simp [setRuntime, updFn, hx]

theorem startAccountStep_getRuntime_other (pid : ProviderId) (wd : Bool)
    (env : String → AccountEnv) (now : Nat) (s : Store) (id x : String) (hx : x ≠ id) :
    getRuntime (startAccountStep pid wd env now s id) x = getRuntime s x := by
  simp only [startAccountStep]
  split_ifs <;> simp [setRuntime, getRuntime, updFn, hx]

theorem startAccountStep_inv_self (pid : ProviderId) (wd : Bool)
    (env : String → AccountEnv) (now : Nat) (s : Store) (id : String)
    (hT : s.tasks id = false) :
    (getRuntime (startAccountStep pid wd env now s id) id).running = false →
    (startAccountStep pid wd env now s id).tasks id = false := by
  simp only [startAccountStep]
  split_ifs <;> simp [setRuntime, getRuntime, updFn, applyPatch, hT]

theorem stopAccountStep_tasks_self (hook : Bool) (tf : String → Option String)
    (tS tT : Nat) (s : Store) (id : String) :
    (stopAccountStep hook tf tS tT s id).tasks id = false := by
  simp only [stopAccountStep]
  split_ifs with hg hT
  · simp only [Bool.and_eq_true, Bool.not_eq_true'] at hg
    exact hg.1.2
  · simp [settleTracked_tasks, setRuntime, updFn]
  · simp [setRuntime, updFn]

theorem stopAccountStep_tasks_other (hook : Bool) (tf : String → Option String)
    (tS tT : Nat) (s : Store) (id x : String) (hx : x ≠ id) :
    (stopAccountStep hook tf tS tT s id).tasks x = s.tasks x := by
  simp only [stopAccountStep]
  split_ifs with hg hT
  · rfl
  · simp [settleTracked_tasks, setRuntime, updFn, hx]
  · simp [setRuntime, updFn, hx]

theorem stopAccountStep_getRuntime_other (hook : Bool) (tf : String → Option String)
    (tS tT : Nat) (s : Store) (id x : String) (hx : x ≠ id) :
    getRuntime (stopAccountStep hook tf tS tT s id) x = getRuntime s x := by
  simp only [stopAccountStep]
  split_ifs with hg hT
  · rfl
  · cases hf : tf id <;> simp [hf, settleTracked, setRuntime, getRuntime, updFn, hx]
  · simp [setRuntime, getRuntime, updFn, hx]

theorem storeInv_startAccountStep (pid : ProviderId) (wd : Bool) (env : String → AccountEnv)
    (now : Nat) (s : Store) (id : String) (h : storeInv s) :
    storeInv (startAccountStep pid wd env now s id) := by
  by_cases hT : s.tasks id = true
  · rw [startAccountStep_skip pid wd env now s id hT]
    exact h
  · have hT' : s.tasks id = false := by simpa using hT
    intro x hx
    by_cases hxid : x = id
    · subst hxid
      exact startAccountStep_inv_self pid wd env now s x hT' hx
    · rw [startAccountStep_tasks_other pid wd env now s id x hxid]
      apply h
      rw [← startAccountStep_getRuntime_other pid wd env now s id x hxid]
      exact hx

theorem storeInv_settleTracked (id : String) (f : Option String) (now : Nat) (s : Store)
    (h : storeInv s) : storeInv (settleTracked id f now s) := by
  intro x hx
  rw [settleTracked_tasks, updFn_apply]
  by_cases hxid : x = id
  · simp [hxid]
  · simp only [hxid, if_false]
    apply h
    rw [← getRuntime_settleTracked_ne id x f now s hxid]
    exact hx

theorem storeInv_stopAccountStep (hook : Bool) (tf : String → Option String)
    (tS tT : Nat) (s : Store) (id : String) (h : storeInv s) :
    storeInv (stopAccountStep hook tf tS tT s id) := by
  intro x hx
  by_cases hxid : x = id
  · subst hxid
    exact stopAccountStep_tasks_self hook tf tS tT s x
  · rw [stopAccountStep_tasks_other hook tf tS tT s id x hxid]
    apply h
    rw [← stopAccountStep_getRuntime_other hook tf tS tT s id x hxid]
    exact hx

theorem storeInv_foldl_start (pid : ProviderId) (wd : Bool) (env : String → AccountEnv)
    (now : Nat) (ids : List String) (s : Store) (h : storeInv s) :
    storeInv (ids.foldl (startAccountStep pid wd env now) s) := by
  induction ids generalizing s with
  | nil => exact h
  | cons i rest ih =>
    exact ih _ (storeInv_startAccountStep pid wd env now s i h)

theorem storeInv_foldl_stop (hook : Bool) (tf : String → Option String)
    (tS tT : Nat) (ids : List String) (s : Store) (h : storeInv s) :
    storeInv (ids.foldl (stopAccountStep hook tf tS tT) s) := by
  induction ids generalizing s with
  | nil => exact h
  | cons i rest ih =>
    exact ih _ (storeInv_stopAccountStep hook tf tS tT s i h)

/-- Every manager operation other than `markWhatsAppLoggedOut` preserves the
snapshot/task invariant. -/
theorem managerInv_applyOp (ms : ManagerState) (op : ManagerOp)
    (hop : op.isMarkLoggedOut = false) (h : managerInv ms) : managerInv (applyOp ms op) := by
  cases op with
  | start pid hs ids env wd now =>
    intro q
    show storeInv ((startProvider pid hs ids env wd now ms).stores q)
    cases hs with
    | false => exact h q
    | true =>
      by_cases hq : q = pid
      · subst hq
        rw [startProvider, if_neg (by simp), stores_setStore_self]
        exact storeInv_foldl_start q wd env now ids (ms.stores q) (h q)
      · rw [startProvider, if_neg (by simp), stores_setStore_ne ms pid q _ hq]
        exact h q
  | settle pid id failure now =>
    intro q
    by_cases hq : q = pid
    · subst hq
      rw [applyOp, stores_setStore_self]
      exact storeInv_settleTracked id failure now (ms.stores q) (h q)
    · rw [applyOp, stores_setStore_ne ms pid q _ hq]
      exact h q
  | stop pid hook ids tf tS tT =>
    intro q
    by_cases hq : q = pid
    · subst hq
      rw [applyOp, stopProvider, stores_setStore_self]
      exact storeInv_foldl_stop hook tf tS tT ids (ms.stores q) (h q)
    · rw [applyOp, stopProvider, stores_setStore_ne ms pid q _ hq]
      exact h q
  | markLoggedOut resolvedId cleared => simp [ManagerOp.isMarkLoggedOut] at hop
  | snapshot => exact h

/-- The manager starts with every store empty, where the invariant holds. -/
theorem managerInv_initial : managerInv initialManagerState := by
  intro pid id _
  rfl

/-- C2 counterexample: the claim quantifies over every sequence of manager
operations, but `markWhatsAppLoggedOut` merges `{running: false}` into the
snapshot without clearing the tracked task, so after starting the WhatsApp
`default` account and marking it logged out, the snapshot shows
`running = false` while a live task is still registered. -/
theorem snapshot_task_invariant_fails :
    ¬ ∀ ops : List ManagerOp, managerInv (applyOps ops initialManagerState) := by
  intro hall
  have h := hall
    [ManagerOp.start .whatsapp true ["default"] (fun _ => ⟨true, true⟩) false 1,
     ManagerOp.markLoggedOut "default" true]
  have hrun : (getRuntime ((applyOps
      [ManagerOp.start .whatsapp true ["default"] (fun _ => ⟨true, true⟩) false 1,
       ManagerOp.markLoggedOut "default" true] initialManagerState).stores .whatsapp)
      "default").running = false := by decide
  have htask : ((applyOps
      [ManagerOp.start .whatsapp true ["default"] (fun _ => ⟨true, true⟩) false 1,
       ManagerOp.markLoggedOut "default" true] initialManagerState).stores .whatsapp).tasks
      "default" = true := by decide
  have hcontr := h .whatsapp "default" hrun
  rw [htask] at hcontr
  exact absurd hcontr (by decide)

/-- C2 (amended).  Snapshot/task consistency invariant: at every state
reachable by a sequence of `startProvider` / task-settlement /
`stopProvider` / `getRuntimeSnapshot` operations — that is, any operation
sequence not containing `markWhatsAppLoggedOut`, which deliberately patches
only the snapshot and can leave a live task with `running = false` — every
account whose snapshot has `running = false` has no live task registered. -/
theorem snapshot_task_invariant_no_logout (ops : List ManagerOp)
    (h : ∀ op ∈ ops, op.isMarkLoggedOut = false) :
    managerInv (applyOps ops initialManagerState) := by
  suffices hgen : ∀ (l : List ManagerOp) (ms : ManagerState), managerInv ms →
      (∀ op ∈ l, op.isMarkLoggedOut = false) → managerInv (applyOps l ms) from
    hgen ops initialManagerState managerInv_initial h
  intro l
  induction l with
  | nil => intro ms hms _; exact hms
  | cons op rest ih =>
    intro ms hms hl
    exact ih (applyOp ms op)
      (managerInv_applyOp ms op (hl op (List.mem_cons_self _ _)) hms)
      (fun o ho => hl o (List.mem_cons_of_mem _ ho))

/-- Concrete instance of the amended C2: a start/settle/stop/snapshot
sequence keeps the invariant. -/
theorem snapshot_task_invariant_no_logout_witness :
    (∀ op ∈ [ManagerOp.start .telegram true ["a"] (fun _ => ⟨true, true⟩) false 1,
             ManagerOp.settle .telegram "a" (some "conn reset") 2,
             ManagerOp.stop .telegram false ["a"] (fun _ => none) 3 4,
             ManagerOp.snapshot], op.isMarkLoggedOut = false)
    ∧ managerInv (applyOps
        [ManagerOp.start .telegram true ["a"] (fun _ => ⟨true, true⟩) false 1,
         ManagerOp.settle .telegram "a" (some "conn reset") 2,
         ManagerOp.stop .telegram false ["a"] (fun _ => none) 3 4,
         ManagerOp.snapshot] initialManagerState) := by
  have hno : ∀ op ∈ [ManagerOp.start .telegram true ["a"] (fun _ => ⟨true, true⟩) false 1,
      ManagerOp.settle .telegram "a" (some "conn reset") 2,
      ManagerOp.stop .telegram false ["a"] (fun _ => none) 3 4,
      ManagerOp.snapshot], op.isMarkLoggedOut = false := by
    intro op hop
    simp only [List.mem_cons, List.mem_singleton, List.not_mem_nil, or_false] at hop
    rcases hop with h | h | h | h <;> subst h <;> rfl
  exact ⟨hno, snapshot_task_invariant_no_logout _ hno⟩

/-! ## Delivery-loop lemmas -/

/-- When every call in the list settles successfully, the loop issues exactly
these calls in order, throws nothing, and pushes one result per call. -/
theorem sendSeq_all_ok {E R : Type} (send : SendCall → Except E R) (cs : List SendCall)
    (h : ∀ c ∈ cs, ∃ r, send c = Except.ok r) :
    (sendSeq send cs).calls = cs ∧ (sendSeq send cs).err = none
    ∧ (sendSeq send cs).results.length = cs.length := by
  induction cs with
  | nil => exact ⟨rfl, rfl, rfl⟩
  | cons c cs ih =>
    obtain ⟨r, hr⟩ := h c (List.mem_cons_self _ _)
    obtain ⟨h1, h2, h3⟩ := ih (fun d hd => h d (List.mem_cons_of_mem _ hd))
    simp [sendSeq, hr, h1, h2, h3]

/-- When the calls before `bad` all succeed and `bad` rejects, the loop makes
exactly the good calls plus the failing one, keeps the good results, and
throws the error: later calls of the payload are not attempted. -/
theorem sendSeq_fail_after {E R : Type} (send : SendCall → Except E R)
    (good : List SendCall) (bad : SendCall) (rest : List SendCall) (e : E)
    (hgood : ∀ c ∈ good, ∃ r, send c = Except.ok r) (hbad : send bad = Except.error e) :
    sendSeq send (good ++ bad :: rest)
      = ⟨good ++ [bad], (sendSeq send good).results, some e⟩ := by
  induction good with
  | nil => simp [sendSeq, hbad]
  | cons c cs ih =>
    obtain ⟨r, hr⟩ := hgood c (List.mem_cons_self _ _)
    have hrec := ih (fun d hd => hgood d (List.mem_cons_of_mem _ hd))
    simp [sendSeq, hr, hrec]

/-! ## C5: chunked delivery -/

/-- C5.  Chunked delivery: for a media-free payload of a provider that
declares a chunker and has a defined chunk limit, the sequence of `sendText`
calls the delivery loop makes equals — in count, content, and order — the
chunk list produced by applying the chunker to the payload text and the
limit (the loop awaits each send before making the next, so the calls are
sequential by construction); and when the provider's chunker is `null`, the
whole text goes out as exactly one `sendText` call. -/
theorem chunked_delivery {E R : Type} (c : Chunker) (l : Nat)
    (send : SendCall → Except E R) (bestEffort : Bool) (p : NormalizedOutboundPayload)
    (hm : p.mediaUrls = [])
    (hok : ∀ t : String, ∃ r, send (SendCall.text t) = Except.ok r) :
    (deliverOutboundPayloads (some c) (some l) send bestEffort [p]).calls
        = (c p.text l).map SendCall.text
    ∧ (∀ (lim : Option Nat) (be : Bool),
        (deliverOutboundPayloads none lim send be [p]).calls = [SendCall.text p.text]) := by
  constructor
  · have hcalls : payloadCalls (some c) (some l) p = (c p.text l).map SendCall.text := by
      simp [payloadCalls, hm, sendTextCalls]
    have hall : ∀ d ∈ (c p.text l).map SendCall.text, ∃ r, send d = Except.ok r := by
      intro d hd
      simp only [List.mem_map] at hd
      obtain ⟨t, _, rfl⟩ := hd
      exact hok t
    obtain ⟨h1, h2, _⟩ := sendSeq_all_ok send ((c p.text l).map SendCall.text) hall
    simp [deliverOutboundPayloads, hcalls, h2, h1]
  · intro lim be
    have hcalls : payloadCalls none lim p = [SendCall.text p.text] := by
      simp [payloadCalls, hm, sendTextCalls]
    rcases hsend : send (SendCall.text p.text) with e | r
    · cases be <;> simp [deliverOutboundPayloads, hcalls, sendSeq, hsend]
    · simp [deliverOutboundPayloads, hcalls, sendSeq, hsend]

/-- Concrete instance of C5: a two-chunk split is sent as two ordered
`sendText` calls. -/
theorem chunked_delivery_witness :
    ((⟨"hi", []⟩ : NormalizedOutboundPayload).mediaUrls = [])
    ∧ (deliverOutboundPayloads (some (fun t _ => [t, t])) (some 5)
        (fun _ => (Except.ok 0 : Except Unit Nat)) true
        [(⟨"hi", []⟩ : NormalizedOutboundPayload)]).calls
      = [SendCall.text "hi", SendCall.text "hi"] := by
  refine ⟨rfl, ?_⟩
  exact (chunked_delivery (fun t _ => [t, t]) 5
    (fun _ => (Except.ok 0 : Except Unit Nat)) true
    ⟨"hi", []⟩ rfl (fun t => ⟨0, rfl⟩)).1

/-! ## C6: media captioning -/

/-- C6.  Media captioning: a normalized payload with `N ≥ 1` media URLs and
non-empty text produces exactly `N` `sendMedia` calls in URL-list order, the
first carrying the payload text as caption and the remaining `N - 1` the
empty caption. -/
theorem media_captioning {E R : Type} (chunker : Option Chunker) (lim : Option Nat)
    (send : SendCall → Except E R) (be : Bool) (p : NormalizedOutboundPayload)
    (u : String) (rest : List String)
    (hm : p.mediaUrls = u :: rest) (_ht : p.text ≠ "")
    (hok : ∀ cap url : String, ∃ r, send (SendCall.media cap url) = Except.ok r) :
    (deliverOutboundPayloads chunker lim send be [p]).calls
        = SendCall.media p.text u :: rest.map (fun v => SendCall.media "" v)
    ∧ (deliverOutboundPayloads chunker lim send be [p]).calls.length
        = p.mediaUrls.length := by
  have hcalls : payloadCalls chunker lim p
      = SendCall.media p.text u :: rest.map (fun v => SendCall.media "" v) := by
    simp [payloadCalls, hm, mediaCalls]
  have hall : ∀ d ∈ SendCall.media p.text u :: rest.map (fun v => SendCall.media "" v),
      ∃ r, send d = Except.ok r := by
    intro d hd
    rcases List.mem_cons.mp hd with h | h
    · subst h; exact hok p.text u
    · simp only [List.mem_map] at h
      obtain ⟨v, _, rfl⟩ := h
      exact hok "" v
  obtain ⟨h1, h2, _⟩ := sendSeq_all_ok send
    (SendCall.media p.text u :: rest.map (fun v => SendCall.media "" v)) hall
  constructor
  · simp [deliverOutboundPayloads, hcalls, h2, h1]
  · simp [deliverOutboundPayloads, hcalls, h2, h1, hm]

/-- Concrete instance of C6: two media URLs, caption on the first call only. -/
theorem media_captioning_witness :
    ((⟨"cap", ["u1", "u2"]⟩ : NormalizedOutboundPayload).mediaUrls = ["u1", "u2"])
    ∧ ((⟨"cap", ["u1", "u2"]⟩ : NormalizedOutboundPayload).text ≠ "")
    ∧ (deliverOutboundPayloads none none
        (fun _ => (Except.ok 0 : Except Unit Nat)) true
        [(⟨"cap", ["u1", "u2"]⟩ : NormalizedOutboundPayload)]).calls
      = [SendCall.media "cap" "u1", SendCall.media "" "u2"] := by
  refine ⟨rfl, by decide, ?_⟩
  exact (media_captioning none none (fun _ => (Except.ok 0 : Except Unit Nat)) true
    ⟨"cap", ["u1", "u2"]⟩ "u1" ["u2"] rfl (by decide) (fun cap url => ⟨0, rfl⟩)).1

/-! ## C7: best-effort versus fail-fast delivery -/

/-- C7.  Three payloads where payload 2's (first) send throws: with
`bestEffort = true` the returned results are exactly payloads 1 and 3's
results, the error callback fires exactly once and receives payload 2, and
nothing propagates; with `bestEffort = false` delivery aborts immediately
after payload 2's failing call (payload 3 is never attempted), only payload
1's results were produced, no callback fires, and the error propagates to
the caller. -/
theorem best_effort_vs_fail_fast {E R : Type} (chunker : Option Chunker) (lim : Option Nat)
    (send : SendCall → Except E R) (p1 p2 p3 : NormalizedOutboundPayload) (e : E)
    (c2 : SendCall) (cs2 : List SendCall)
    (h1 : ∀ d ∈ payloadCalls chunker lim p1, ∃ r, send d = Except.ok r)
    (h2 : payloadCalls chunker lim p2 = c2 :: cs2)
    (hfail : send c2 = Except.error e)
    (h3 : ∀ d ∈ payloadCalls chunker lim p3, ∃ r, send d = Except.ok r) :
    ((deliverOutboundPayloads chunker lim send true [p1, p2, p3]).results
        = (sendSeq send (payloadCalls chunker lim p1)).results
          ++ (sendSeq send (payloadCalls chunker lim p3)).results)
    ∧ (deliverOutboundPayloads chunker lim send true [p1, p2, p3]).callbacks = [(e, p2)]
    ∧ (deliverOutboundPayloads chunker lim send true [p1, p2, p3]).thrown = none
    ∧ ((deliverOutboundPayloads chunker lim send false [p1, p2, p3]).results
        = (sendSeq send (payloadCalls chunker lim p1)).results)
    ∧ (deliverOutboundPayloads chunker lim send false [p1, p2, p3]).callbacks = []
    ∧ (deliverOutboundPayloads chunker lim send false [p1, p2, p3]).thrown = some e
    ∧ ((deliverOutboundPayloads chunker lim send false [p1, p2, p3]).calls
        = (sendSeq send (payloadCalls chunker lim p1)).calls ++ [c2]) := by
  obtain ⟨ha1, he1, _⟩ := sendSeq_all_ok send _ h1
  obtain ⟨ha3, he3, _⟩ := sendSeq_all_ok send _ h3
  have h2seq : sendSeq send (payloadCalls chunker lim p2)
      = ⟨[c2], [], some e⟩ := by
    rw [h2]
    simp [sendSeq, hfail]
  refine ⟨?_, ?_, ?_, ?_, ?_, ?_, ?_⟩ <;>
    simp [deliverOutboundPayloads, he1, he3, h2seq]

/-- Concrete instance of C7: payload "b" of three single-call payloads
fails. -/
theorem best_effort_vs_fail_fast_witness :
    (payloadCalls none none (⟨"b", []⟩ : NormalizedOutboundPayload)
        = [SendCall.text "b"])
    ∧ ((fun d => if d = SendCall.text "b" then Except.error "boom"
          else Except.ok (1 : Nat)) (SendCall.text "b") = Except.error "boom")
    ∧ (deliverOutboundPayloads none none
        (fun d => if d = SendCall.text "b" then Except.error "boom"
          else Except.ok (1 : Nat)) true
        [⟨"a", []⟩, ⟨"b", []⟩, ⟨"c", []⟩]).callbacks
      = [("boom", (⟨"b", []⟩ : NormalizedOutboundPayload))]
    ∧ (deliverOutboundPayloads none none
        (fun d => if d = SendCall.text "b" then Except.error "boom"
          else Except.ok (1 : Nat)) false
        [⟨"a", []⟩, ⟨"b", []⟩, ⟨"c", []⟩]).thrown = some "boom" := by
  have hfire := best_effort_vs_fail_fast (E := String) (R := Nat) none none
    (fun d => if d = SendCall.text "b" then Except.error "boom" else Except.ok 1)
    ⟨"a", []⟩ ⟨"b", []⟩ ⟨"c", []⟩ "boom" (SendCall.text "b") []
    (by intro d hd; simp [payloadCalls, sendTextCalls] at hd; subst hd
        exact ⟨1, rfl⟩)
    rfl rfl
    (by intro d hd; simp [payloadCalls, sendTextCalls] at hd; subst hd
        exact ⟨1, rfl⟩)
  exact ⟨rfl, rfl, hfire.2.1, hfire.2.2.2.2.2.1⟩

/-! ## C10: partial results within a failed payload -/

/-- C10.  In best-effort mode, when a media payload fails on its `k`-th
`sendMedia` call (`k > 1`: the calls before it succeed), the results of the
first `k - 1` media sends remain in the returned result list — one result
per successful call, never rolled back — the error callback fires exactly
once for that payload, and delivery continues with the next payloads. -/
theorem media_midfail_results_kept {E R : Type} (chunker : Option Chunker) (lim : Option Nat)
    (send : SendCall → Except E R) (p : NormalizedOutboundPayload)
    (qs : List NormalizedOutboundPayload) (good : List SendCall) (bad : SendCall)
    (restC : List SendCall) (e : E)
    (hmedia : p.mediaUrls ≠ [])
    (hsplit : mediaCalls p.text p.mediaUrls = good ++ bad :: restC)
    (_hk : good ≠ [])
    (hgood : ∀ d ∈ good, ∃ r, send d = Except.ok r)
    (hbad : send bad = Except.error e) :
    ((deliverOutboundPayloads chunker lim send true (p :: qs)).results
        = (sendSeq send good).results
          ++ (deliverOutboundPayloads chunker lim send true qs).results)
    ∧ ((deliverOutboundPayloads chunker lim send true (p :: qs)).callbacks
        = (e, p) :: (deliverOutboundPayloads chunker lim send true qs).callbacks)
    ∧ ((deliverOutboundPayloads chunker lim send true (p :: qs)).calls
        = (good ++ [bad]) ++ (deliverOutboundPayloads chunker lim send true qs).calls)
    ∧ (sendSeq send good).results.length = good.length := by
  have hpc : payloadCalls chunker lim p = good ++ bad :: restC := by
    simp [payloadCalls, List.isEmpty_iff, hmedia, hsplit]
  have hseq := sendSeq_fail_after send good bad restC e hgood hbad
  obtain ⟨_, _, hlen⟩ := sendSeq_all_ok send good hgood
  refine ⟨?_, ?_, ?_, hlen⟩ <;> simp [deliverOutboundPayloads, hpc, hseq]

/-- Concrete instance of C10: a two-URL media payload failing on the second
`sendMedia`, followed by a further payload. -/
theorem media_midfail_results_kept_witness :
    (mediaCalls "cap" ["u1", "u2"]
        = [SendCall.media "cap" "u1"] ++ SendCall.media "" "u2" :: [])
    ∧ ([SendCall.media "cap" "u1"] ≠ [])
    ∧ (deliverOutboundPayloads none none
        (fun d => if d = SendCall.media "" "u2" then Except.error "big"
          else Except.ok (7 : Nat)) true
        [⟨"cap", ["u1", "u2"]⟩, ⟨"next", []⟩]).callbacks
      = ("big", (⟨"cap", ["u1", "u2"]⟩ : NormalizedOutboundPayload))
          :: (deliverOutboundPayloads none none
            (fun d => if d = SendCall.media "" "u2" then Except.error "big"
              else Except.ok (7 : Nat)) true [⟨"next", []⟩]).callbacks := by
  refine ⟨rfl, by decide, ?_⟩
  exact (media_midfail_results_kept (E := String) (R := Nat) none none
    (fun d => if d = SendCall.media "" "u2" then Except.error "big" else Except.ok 7)
    ⟨"cap", ["u1", "u2"]⟩ [⟨"next", []⟩] [SendCall.media "cap" "u1"]
    (SendCall.media "" "u2") [] "big" (by decide) rfl (by decide)
    (by intro d hd; simp at hd; subst hd; exact ⟨7, rfl⟩)
    rfl).2.1

/-! ## C8: target resolution -/

/-- C8.  Target resolution: for every supported outbound provider, an empty
or whitespace-only destination with no fallback list resolves to
`{ok: false}` carrying that provider's expected-address-syntax message, and
a destination with non-whitespace content resolves to `{ok: true}` (for any
fallback list).  The resolver is a pure total function of its inputs — no
network I/O, no suspension. -/
theorem target_resolution (pid : ProviderId) (normalizeE164 : String → String)
    (dest : Option String) :
    (((dest.map jsTrim).getD "") = "" →
        resolveOutboundTarget pid normalizeE164 dest none
          = .err (expectedSyntaxError pid))
    ∧ (∀ allowFrom, ((dest.map jsTrim).getD "") ≠ "" →
        ∃ t, resolveOutboundTarget pid normalizeE164 dest allowFrom = .ok t) := by
  constructor
  · intro h
    cases pid <;>
      simp [resolveOutboundTarget, whatsappResolveTarget, simpleResolveTarget,
        expectedSyntaxError, h]
  · intro allowFrom h
    cases pid
    case whatsapp =>
      exact ⟨normalizeE164 ((dest.map jsTrim).getD ""),
        by simp [resolveOutboundTarget, whatsappResolveTarget, h]⟩
    all_goals exact ⟨(dest.map jsTrim).getD "",
      by simp [resolveOutboundTarget, simpleResolveTarget, h]⟩

/-- Concrete instance of C8: Telegram with an empty destination fails with
its syntax message; WhatsApp with a destination succeeds. -/
theorem target_resolution_witness :
    (((none : Option String).map jsTrim).getD "" = ""
      ∧ resolveOutboundTarget .telegram id none none
          = .err "Delivering to Telegram requires --to <chatId>")
    ∧ ((((some "+15551234567" : Option String)).map jsTrim).getD "" ≠ ""
      ∧ ∃ t, resolveOutboundTarget .whatsapp id (some "+15551234567") none = .ok t) := by
  refine ⟨⟨rfl, ?_⟩, ?_, ?_⟩
  · exact (target_resolution .telegram id none).1 rfl
  · decide
  · exact (target_resolution .whatsapp id (some "+15551234567")).2 none (by decide)

/-! ## C9: supervisor signal handling -/

/-- C9.  Supervisor signal handling: a stop or restart signal arriving while
a shutdown is already in progress leaves the loop state unchanged (ignored);
a restart signal during normal operation followed by the close completing
yields a freshly constructed server in the same process (generation bumped,
process not exited, `shuttingDown` cleared); a stop signal leads to process
exit both when the close completes and when the forced-exit grace timer
fires first — whichever comes first, the process exits. -/
theorem supervisor_signal_semantics (s : SupervisorState) (a : GatewayRunSignalAction)
    (hExited : s.exited = false) :
    (s.shuttingDown = true → supervisorStep s (.signal a) = s)
    ∧ (s.shuttingDown = false →
        (supervisorStep (supervisorStep s (.signal .restart)) .closeDone).exited = false
        ∧ (supervisorStep (supervisorStep s (.signal .restart)) .closeDone).serverUp = true
        ∧ (supervisorStep (supervisorStep s (.signal .restart)) .closeDone).serverGen
            = s.serverGen + 1
        ∧ (supervisorStep (supervisorStep s (.signal .restart)) .closeDone).shuttingDown
            = false)
    ∧ (s.shuttingDown = false →
        (supervisorStep (supervisorStep s (.signal .stop)) .closeDone).exited = true
        ∧ (supervisorStep (supervisorStep s (.signal .stop)) .timerFired).exited = true) := by
  refine ⟨?_, ?_, ?_⟩
  · intro h
    simp [supervisorStep, hExited, h]
  · intro h
    refine ⟨?_, ?_, ?_, ?_⟩ <;>
      simp [supervisorStep, hExited, h, GatewayRunSignalAction.isRestart]
  · intro h
    constructor <;>
      simp [supervisorStep, hExited, h, GatewayRunSignalAction.isRestart]

/-- Concrete instance of C9: a second stop signal during shutdown is ignored,
and a stop from normal operation exits once the close completes. -/
theorem supervisor_signal_semantics_witness :
    (({ supervisorInit with shuttingDown := true } : SupervisorState).exited = false
      ∧ supervisorStep { supervisorInit with shuttingDown := true } (.signal .stop)
          = { supervisorInit with shuttingDown := true })
    ∧ (supervisorInit.exited = false
      ∧ (supervisorStep (supervisorStep supervisorInit (.signal .stop)) .closeDone).exited
          = true) := by
  refine ⟨⟨rfl, ?_⟩, rfl, ?_⟩
  · exact (supervisor_signal_semantics { supervisorInit with shuttingDown := true }
      .stop rfl).1 rfl
  · exact ((supervisor_signal_semantics supervisorInit .stop rfl).2.2 rfl).1

end Clawdbot
